import Mathlib

/-!
Verification of the collaborative editor's sync core (`worker/SpaceRoom.ts`
and `src/sync/SyncClient.ts`), shallowly embedded in Lean.

The Room Actor (Durable Object `SpaceRoom`) keeps an in-memory document
state, a layout state and a session registry, persists to SQLite, and
relays messages between WebSocket sessions.  The client (`SyncClient`)
parses server messages and dispatches to callbacks.  Both are embedded
here as pure step functions; randomness (`Math.random`) and the
server-assigned ids are passed in as explicit parameters.
-/

/-- Cursor position, `{ line, column }` in the TS source. -/
structure Cursor where
  line : Int
  column : Int
deriving DecidableEq

/-- Selection range from the TS source. -/
structure Selection where
  startLine : Int
  startColumn : Int
  endLine : Int
  endColumn : Int
deriving DecidableEq

/-- A tab record.  The worker's `DocumentState` declares
`{ id; title; content; hidden? }`; the client's declares in addition
`isPreview?` and `sourceTabId?`.  At runtime both are plain JS objects, so
we use one record type with the optional fields as `Option` (a field that
is `none` models an absent / `undefined` JS property). -/
structure Tab where
  id : String
  title : String
  content : String
  hidden : Option Bool
  isPreview : Option Bool
  sourceTabId : Option String
deriving DecidableEq

/-- `PaneState` from the TS source. -/
structure PaneState where
  id : String
  tabIds : List String
  activeTabId : Option String
deriving DecidableEq

/-- `LayoutSplitData` from the TS source: a recursive split tree.
`ltype` is the `type` field (`'pane'` or `'split'`). -/
inductive LayoutSplitData where
  | mk (ltype : String) (direction : Option String)
       (children : Option (List LayoutSplitData)) (paneId : Option String)
       (sizes : Option (List Int))

/-- `DocumentState` from the TS source (worker side). -/
structure DocumentState where
  tabs : List Tab
  activeTabId : Option String
  tabCounter : Int
deriving DecidableEq

/-- `LayoutState` from the TS source. -/
structure LayoutState where
  layout : LayoutSplitData
  panes : List PaneState

/-- A connected session as kept by the Room Actor (socket omitted:
it is an external handle; the session is keyed by its client id). -/
structure Session where
  clientId : String
  color : String
  tabId : Option String
  cursor : Option Cursor
  selection : Option Selection
deriving DecidableEq

/-- A client message as received by `SpaceRoom.handleMessage`.  The `from`
field of the wire format is the sender's client id, which the worker takes
from the session closure and we pass as an explicit argument, so it is not
repeated here.  `tab-create` carries the optional `isPreview` /
`sourceTabId` fields that `SyncClient.sendTabCreate` puts on the wire
(the worker's interface omits them and its handler ignores them). -/
inductive ClientMessage where
  | tabUpdate (tabId : String) (title : Option String) (content : Option String)
  | tabCreate (tabId : String) (title : String) (content : String)
              (isPreview : Option Bool) (sourceTabId : Option String)
  | tabClose (tabId : String)
  | tabHide (tabId : String)
  | tabRestore (tabId : String)
  | tabRename (tabId : String) (title : String)
  | fullSync (state : DocumentState)
  | awareness (tabId : Option String) (cursor : Option Cursor) (selection : Option Selection)
  | layoutUpdate (layout : LayoutSplitData) (panes : List PaneState)

/-- One row of the SQLite `tabs` table as written by `persistState`. -/
structure TabRow where
  id : String
  title : String
  content : String
  hidden : Nat
  sort_order : Nat
deriving DecidableEq

/-- The single row of the SQLite `document_state` table. -/
structure DocRow where
  active_tab_id : Option String
  tab_counter : Int
deriving DecidableEq

/-- The Room Actor's SQLite storage: `document_state`, `tabs`
(listed in `sort_order`), and `layout_state`. -/
structure Db where
  docRow : Option DocRow
  tabRows : List TabRow
  layoutRow : Option LayoutState

/-- The Room Actor's full state: session registry, in-memory document and
layout state, and SQLite storage. -/
structure RoomState where
  sessions : List Session
  documentState : Option DocumentState
  layoutState : Option LayoutState
  db : Db

/-- Entry of the awareness table sent to clients (per-session color,
tab, cursor, selection). -/
structure AwarenessEntry where
  color : String
  tabId : Option String
  cursor : Option Cursor
  selection : Option Selection
deriving DecidableEq

/-- A wire message the Room Actor sends out: either a verbatim relay of a
client message (`broadcast`) or a full awareness-table snapshot
(`broadcastAwareness`). -/
inductive WireOut where
  | relay (msg : ClientMessage)
  | awarenessTable (clients : List (String × AwarenessEntry))

/-- `this.sessions.get(clientId)` on the registry. -/
def sessionLookup (sessions : List Session) (cid : String) : Option Session :=
  sessions.find? (fun s => s.clientId == cid)

/-- Whether a client id is currently registered. -/
def sessionExists (sessions : List Session) (cid : String) : Bool :=
  (sessionLookup sessions cid).isSome

/-- `this.documentState.tabs.find(t => t.id === tabId)`. -/
def findTab (tabs : List Tab) (tabId : String) : Option Tab :=
  tabs.find? (fun t => t.id == tabId)

/-- Whether a `tab-update`'s tabId matches some tab of the current
document state (the guard of the worker's `tab-update` branch). -/
def tabExists (od : Option DocumentState) (tabId : String) : Bool :=
  match od with
  | none => false
  | some doc => (findTab doc.tabs tabId).isSome

/-- The worker mutates the tab object returned by `find` in place; the
functional counterpart rewrites the first tab whose id matches. -/
def updateFirstTab (tabs : List Tab) (tabId : String) (f : Tab → Tab) : List Tab :=
  match tabs with
  | [] => []
  | t :: ts => if t.id == tabId then f t :: ts else t :: updateFirstTab ts tabId f

/-- The field-wise overwrite a `tab-update` applies to the found tab:
`if (message.content !== undefined) tab.content = ...;`
`if (message.title !== undefined) tab.title = ...;`. -/
def applyTabUpdateFields (title : Option String) (content : Option String) (t : Tab) : Tab :=
  let t1 := match content with
    | some c => { t with content := c }
    | none => t
  match title with
  | some ti => { t1 with title := ti }
  | none => t1

/-- `persistState`'s upsert loop over `this.documentState.tabs`: one row
per tab, `hidden ? 1 : 0`, `sort_order = index`.  Together with the
delete-removed-tabs pass, the `tabs` table afterwards holds exactly these
rows. -/
def persistTabs (tabs : List Tab) : List TabRow :=
  (List.range tabs.length).zip tabs |>.map (fun p =>
    { id := p.2.id, title := p.2.title, content := p.2.content,
      hidden := if p.2.hidden == some true then 1 else 0,
      sort_order := p.1 })

/-- `persistState`: no-op when `documentState` is null, else overwrite the
`document_state` row and make the `tabs` table match the tab list. -/
def persistState (od : Option DocumentState) (db : Db) : Db :=
  match od with
  | none => db
  | some doc =>
      { db with
        docRow := some { active_tab_id := doc.activeTabId, tab_counter := doc.tabCounter },
        tabRows := persistTabs doc.tabs }

/-- `persistLayout`: no-op when `layoutState` is null, else overwrite the
`layout_state` row. -/
def persistLayout (ol : Option LayoutState) (db : Db) : Db :=
  match ol with
  | none => db
  | some l => { db with layoutRow := some l }

/-- `broadcast(excludeClientId, message)`: send to every session whose id
differs from the sender's. -/
def broadcastExcept (sessions : List Session) (excludeClientId : String)
    (msg : ClientMessage) : List (String × WireOut) :=
  (sessions.filter (fun s => !(s.clientId == excludeClientId))).map
    (fun s => (s.clientId, WireOut.relay msg))

/-- The awareness entry `broadcastAwareness` builds for one session. -/
def awarenessEntryOf (s : Session) : AwarenessEntry :=
  { color := s.color, tabId := s.tabId, cursor := s.cursor, selection := s.selection }

/-- The table `broadcastAwareness` builds: one entry per connected
session, keyed by client id — no session is excluded. -/
def awarenessTableOf (sessions : List Session) : List (String × AwarenessEntry) :=
  sessions.map (fun s => (s.clientId, awarenessEntryOf s))

/-- `broadcastAwareness()`: sends the full table to every session,
the sender included. -/
def broadcastAwareness (sessions : List Session) : List (String × WireOut) :=
  sessions.map (fun s => (s.clientId, WireOut.awarenessTable (awarenessTableOf sessions)))

/-- The empty document the worker creates on `tab-create` when
`documentState` is null. -/
def emptyDocumentState : DocumentState :=
  { tabs := [], activeTabId := none, tabCounter := 0 }

/-- `SpaceRoom.handleMessage(clientId, message)`.  Returns the new room
state and the outbound messages as `(recipient client id, message)`
pairs.  Mirrors the TS `switch` case by case; `trackWrite` is an external
best-effort D1 counter and has no effect on room state. -/
def handleMessage (st : RoomState) (clientId : String) (msg : ClientMessage) :
    RoomState × List (String × WireOut) :=
  match sessionLookup st.sessions clientId with
  | none => (st, [])
  | some _session =>
    match msg with
    | ClientMessage.tabUpdate tabId title content =>
        let st1 :=
          match st.documentState with
          | none => st
          | some doc =>
              match findTab doc.tabs tabId with
              | none => st
              | some _ =>
                  let doc1 := { doc with
                    tabs := updateFirstTab doc.tabs tabId (applyTabUpdateFields title content) }
                  { st with documentState := some doc1,
                            db := persistState (some doc1) st.db }
        (st1, broadcastExcept st.sessions clientId msg)
    | ClientMessage.tabCreate tabId title content _isPreview _sourceTabId =>
        let doc0 := st.documentState.getD emptyDocumentState
        let doc1 := { doc0 with
          tabs := doc0.tabs ++ [{ id := tabId, title := title, content := content,
                                  hidden := none, isPreview := none, sourceTabId := none }] }
        ({ st with documentState := some doc1, db := persistState (some doc1) st.db },
         broadcastExcept st.sessions clientId msg)
    | ClientMessage.tabClose tabId =>
        let st1 :=
          match st.documentState with
          | none => st
          | some doc =>
              let doc1 := { doc with tabs := doc.tabs.filter (fun t => !(t.id == tabId)) }
              { st with documentState := some doc1,
                        db := persistState (some doc1) st.db }
        (st1, broadcastExcept st.sessions clientId msg)
    | ClientMessage.tabHide tabId =>
        let st1 :=
          match st.documentState with
          | none => st
          | some doc =>
              match findTab doc.tabs tabId with
              | none => st
              | some _ =>
                  let doc1 := { doc with
                    tabs := updateFirstTab doc.tabs tabId (fun t => { t with hidden := some true }) }
                  { st with documentState := some doc1,
                            db := persistState (some doc1) st.db }
        (st1, broadcastExcept st.sessions clientId msg)
    | ClientMessage.tabRestore tabId =>
        let st1 :=
          match st.documentState with
          | none => st
          | some doc =>
              match findTab doc.tabs tabId with
              | none => st
              | some _ =>
                  let doc1 := { doc with
                    tabs := updateFirstTab doc.tabs tabId (fun t => { t with hidden := some false }) }
                  { st with documentState := some doc1,
                            db := persistState (some doc1) st.db }
        (st1, broadcastExcept st.sessions clientId msg)
    | ClientMessage.tabRename tabId title =>
        let st1 :=
          match st.documentState with
          | none => st
          | some doc =>
              match findTab doc.tabs tabId with
              | none => st
              | some _ =>
                  let doc1 := { doc with
                    tabs := updateFirstTab doc.tabs tabId (fun t => { t with title := title }) }
                  { st with documentState := some doc1,
                            db := persistState (some doc1) st.db }
        (st1, broadcastExcept st.sessions clientId msg)
    | ClientMessage.fullSync state =>
        ({ st with documentState := some state,
                   db := persistState (some state) st.db },
         broadcastExcept st.sessions clientId msg)
    | ClientMessage.awareness tabId cursor selection =>
        let sessions1 := st.sessions.map (fun s =>
          if s.clientId == clientId then
            { s with tabId := tabId, cursor := cursor, selection := selection }
          else s)
        ({ st with sessions := sessions1 }, broadcastAwareness sessions1)
    | ClientMessage.layoutUpdate layout panes =>
        let l1 : LayoutState := { layout := layout, panes := panes }
        ({ st with layoutState := some l1, db := persistLayout (some l1) st.db },
         broadcastExcept st.sessions clientId msg)

/-- The color palette of `generateColor`. -/
def colors : List String :=
  ["#FF6B6B", "#4ECDC4", "#45B7D1", "#96CEB4",
   "#FFEAA7", "#DDA0DD", "#98D8C8", "#F7DC6F",
   "#BB8FCE", "#85C1E9", "#F8B500", "#00CED1"]

/-- `generateColor()`: `colors[Math.floor(Math.random() * colors.length)]`.
The random draw is passed in as `randomIndex`; `% colors.length` models
that the floored draw always lands inside the palette.  The function reads
nothing but its random input — in particular not the session registry. -/
def generateColor (randomIndex : Nat) : String :=
  colors.getD (randomIndex % colors.length) ""

/-- `handleWebSocket()`'s session registration: a fresh session with the
server-generated `clientId` (a random UUID, passed in) and a color from
`generateColor`, added to the registry.  Returns the new room state and
the created session. -/
def handleWebSocket (st : RoomState) (newClientId : String) (randomIndex : Nat) :
    RoomState × Session :=
  let session : Session :=
    { clientId := newClientId, color := generateColor randomIndex,
      tabId := none, cursor := none, selection := none }
  ({ st with sessions := st.sessions ++ [session] }, session)

/-- Payload of a server message as parsed by `SyncClient.handleMessage`
(the TS `ServerMessage` union, minus the shared `from` field, which lives
on the `ServerMessage` wrapper below).  `update` is in the TS union but
has no `switch` case, so the client ignores it. -/
inductive ServerPayload where
  | sync (state : Option DocumentState) (layout : Option LayoutState)
         (awareness : Option (List (String × AwarenessEntry))) (clientId : String)
  | fullSync (state : Option DocumentState)
  | tabUpdate (tabId : String) (title : Option String) (content : Option String)
  | tabCreate (tabId : String) (title : String) (content : String)
              (isPreview : Option Bool) (sourceTabId : Option String)
  | tabClose (tabId : String)
  | tabHide (tabId : String)
  | tabRestore (tabId : String)
  | tabRename (tabId : String) (title : String)
  | layoutUpdate (layout : LayoutSplitData) (panes : List PaneState)
  | awareness (clients : List (String × AwarenessEntry))
  | update (tabId : String) (content : String)

/-- A server message on the wire: optional `from` field plus payload.
`fromId = none` models a message without a `from` property. -/
structure ServerMessage where
  fromId : Option String
  payload : ServerPayload

/-- One callback invocation made by `SyncClient.handleMessage`, with the
exact arguments passed. -/
inductive ClientCallback where
  | onSync (state : Option DocumentState)
  | onLayoutUpdate (layout : LayoutSplitData) (panes : List PaneState)
  | onAwarenessChange (clients : List (String × AwarenessEntry))
  | onTabUpdate (tabId : String) (content : String) (title : Option String)
  | onTabCreate (tabId : String) (title : String) (content : String)
                (isPreview : Option Bool) (sourceTabId : Option String)
  | onTabClose (tabId : String)
  | onTabHide (tabId : String)
  | onTabRestore (tabId : String)
  | onTabRename (tabId : String) (title : String)

/-- The part of `SyncClient`'s state that `handleMessage` reads or
writes: the server-assigned client id (`null` until the first `sync`). -/
structure ClientState where
  clientId : Option String
deriving DecidableEq

/-- The self-echo guard
`'from' in message && message.from === this.clientId`. -/
def shouldDiscard (st : ClientState) (msg : ServerMessage) : Bool :=
  match msg.fromId, st.clientId with
  | some f, some c => f == c
  | _, _ => false

/-- JS `message.content || ''`: an absent or empty (falsy) content field
becomes the empty string. -/
def jsOrEmptyString (c : Option String) : String :=
  match c with
  | none => ""
  | some s => if s == "" then "" else s

/-- The `switch (message.type)` body of `SyncClient.handleMessage`,
reached only when the self-echo guard did not fire. -/
def dispatchPayload (st : ClientState) (p : ServerPayload) :
    ClientState × List ClientCallback :=
  match p with
  | ServerPayload.sync state layout awareness clientId =>
      let st1 := if clientId == "" then st else { st with clientId := some clientId }
      let cbs1 := [ClientCallback.onSync state]
      let cbs2 := match layout with
        | some l => cbs1 ++ [ClientCallback.onLayoutUpdate l.layout l.panes]
        | none => cbs1
      let cbs3 := match awareness with
        | some a => cbs2 ++ [ClientCallback.onAwarenessChange a]
        | none => cbs2
      (st1, cbs3)
  | ServerPayload.fullSync state =>
      match state with
      | some s => (st, [ClientCallback.onSync (some s)])
      | none => (st, [])
  | ServerPayload.tabUpdate tabId title content =>
      (st, [ClientCallback.onTabUpdate tabId (jsOrEmptyString content) title])
  | ServerPayload.tabCreate tabId title content isPreview sourceTabId =>
      (st, [ClientCallback.onTabCreate tabId title content isPreview sourceTabId])
  | ServerPayload.tabClose tabId => (st, [ClientCallback.onTabClose tabId])
  | ServerPayload.tabHide tabId => (st, [ClientCallback.onTabHide tabId])
  | ServerPayload.tabRestore tabId => (st, [ClientCallback.onTabRestore tabId])
  | ServerPayload.tabRename tabId title => (st, [ClientCallback.onTabRename tabId title])
  | ServerPayload.layoutUpdate layout panes =>
      (st, [ClientCallback.onLayoutUpdate layout panes])
  | ServerPayload.awareness clients =>
      (st, [ClientCallback.onAwarenessChange clients])
  | ServerPayload.update _ _ => (st, [])

/-- `SyncClient.handleMessage`: drop self-echoes, else dispatch. -/
def clientHandleMessage (st : ClientState) (msg : ServerMessage) :
    ClientState × List ClientCallback :=
  if shouldDiscard st msg then (st, []) else dispatchPayload st msg.payload

/-- `this.maxReconnectAttempts = 10`. -/
def maxReconnectAttempts : Nat := 10

/-- `SyncClient.scheduleReconnect`: given the current
`reconnectAttempts` counter, returns the scheduled delay in ms (`none`
when no reconnect is scheduled) and the new counter,
`delay = Math.min(1000 * Math.pow(2, attempts), 30000)`. -/
def scheduleReconnect (reconnectAttempts : Nat) : Option Nat × Nat :=
  if reconnectAttempts ≥ maxReconnectAttempts then
    (none, reconnectAttempts)
  else
    (some (min (1000 * 2 ^ reconnectAttempts) 30000), reconnectAttempts + 1)

/-! ### Derived notions used to state the claims -/

/-- Default tab used only to state positional facts via `List.getD`. -/
def defaultTab : Tab :=
  { id := "", title := "", content := "", hidden := none,
    isPreview := none, sourceTabId := none }

/-- Index of the first tab whose id matches (the tab that
`tabs.find(t => t.id === tabId)` returns and the handlers mutate). -/
def firstMatchIdx (tabs : List Tab) (tabId : String) : Option Nat :=
  match tabs with
  | [] => none
  | t :: ts =>
      if t.id == tabId then some 0 else (firstMatchIdx ts tabId).map (· + 1)

/-- Reading a tab's content out of a document state, as the spec's
"reading any tab's `content`" does. -/
def tabContentRead (od : Option DocumentState) (tabId : String) : Option String :=
  (od.bind (fun d => findTab d.tabs tabId)).map Tab.content

/-- An empty SQLite storage. -/
def emptyDb : Db := { docRow := none, tabRows := [], layoutRow := none }

/-- The document state after hiding then restoring a tab (the round-trip
scenario of the spec's hide/restore invariant). -/
def afterHideRestore (st : RoomState) (cid tabId : String) : Option DocumentState :=
  ((handleMessage (handleMessage st cid (ClientMessage.tabHide tabId)).1 cid
      (ClientMessage.tabRestore tabId)).1).documentState

/-! ### Concrete instances used by witnesses and counterexamples -/

def wSession : Session :=
  { clientId := "a", color := "#FF6B6B", tabId := none, cursor := none, selection := none }

def wTab : Tab :=
  { id := "t2", title := "notes.md", content := "x", hidden := none,
    isPreview := none, sourceTabId := none }

def wDoc : DocumentState := { tabs := [wTab], activeTabId := some "t2", tabCounter := 1 }

def wRoom : RoomState :=
  { sessions := [wSession], documentState := some wDoc, layoutState := none, db := emptyDb }

def c3Room : RoomState :=
  { sessions := [wSession], documentState := none, layoutState := none, db := emptyDb }

def cexSessionA : Session :=
  { clientId := "a", color := "#FF6B6B", tabId := some "t1",
    cursor := some { line := 0, column := 0 }, selection := none }

def cexSessionB : Session :=
  { clientId := "b", color := "#4ECDC4", tabId := some "t1",
    cursor := some { line := 1, column := 0 }, selection := none }

def cexRoom : RoomState :=
  { sessions := [cexSessionA, cexSessionB], documentState := none,
    layoutState := none, db := emptyDb }

def cexMsg : ClientMessage :=
  ClientMessage.awareness (some "t1") (some { line := 2, column := 0 }) none

def cexStep : RoomState × List (String × WireOut) := handleMessage cexRoom "a" cexMsg

def cexTable : List (String × AwarenessEntry) := awarenessTableOf cexStep.1.sessions

def c9Room : RoomState :=
  { sessions := [wSession], documentState := none, layoutState := none, db := emptyDb }

/-! ### Helper lemmas -/

theorem mem_broadcastExcept_ne (sessions : List Session) (cid : String)
    (msg : ClientMessage) (p : String × WireOut)
    (hp : p ∈ broadcastExcept sessions cid msg) : p.1 ≠ cid := by
  simp only [broadcastExcept, List.mem_map, List.mem_filter] at hp
  obtain ⟨s, ⟨_, hne⟩, rfl⟩ := hp
  simpa using hne

theorem updateFirstTab_length (tabs : List Tab) (tabId : String) (f : Tab → Tab) :
    (updateFirstTab tabs tabId f).length = tabs.length := by
  induction tabs with
  | nil => rfl
  | cons t ts ih =>
      simp only [updateFirstTab]
      split <;> simp [ih]

theorem firstMatchIdx_lt_length (tabs : List Tab) (tabId : String) (i : Nat)
    (h : firstMatchIdx tabs tabId = some i) : i < tabs.length := by
  induction tabs generalizing i with
  | nil => simp [firstMatchIdx] at h
  | cons t ts ih =>
      simp only [firstMatchIdx] at h
      split at h
      · have h0 : i = 0 := by simpa using h.symm
        subst h0
        simp
      · obtain ⟨m, hm, rfl⟩ := Option.map_eq_some'.mp h
        have := ih m hm
        simp only [List.length_cons]
        omega

theorem firstMatchIdx_id (tabs : List Tab) (tabId : String) (i : Nat)
    (h : firstMatchIdx tabs tabId = some i) :
    (tabs.getD i defaultTab).id = tabId := by
  induction tabs generalizing i with
  | nil => simp [firstMatchIdx] at h
  | cons t ts ih =>
      simp only [firstMatchIdx] at h
      split at h
      · rename_i htid
        have h0 : i = 0 := by simpa using h.symm
        subst h0
        simpa using htid
      · obtain ⟨m, hm, rfl⟩ := Option.map_eq_some'.mp h
        simpa using ih m hm

theorem findTab_isSome_of_firstMatchIdx (tabs : List Tab) (tabId : String) (i : Nat)
    (h : firstMatchIdx tabs tabId = some i) :
    (findTab tabs tabId).isSome = true := by
  induction tabs generalizing i with
  | nil => simp [firstMatchIdx] at h
  | cons t ts ih =>
      simp only [firstMatchIdx] at h
      split at h
      · rename_i htid
        simp [findTab, List.find?, htid]
      · rename_i htid
        obtain ⟨m, hm, rfl⟩ := Option.map_eq_some'.mp h
        have h2 := ih m hm
        have htid2 : (t.id == tabId) = false := by simpa using htid
        simp only [findTab] at h2 ⊢
        simp [List.find?, htid2, h2]

theorem updateFirstTab_getD_ne (tabs : List Tab) (tabId : String) (f : Tab → Tab)
    (i : Nat) (h : firstMatchIdx tabs tabId = some i) (j : Nat) (hj : j ≠ i) :
    (updateFirstTab tabs tabId f).getD j defaultTab = tabs.getD j defaultTab := by
  induction tabs generalizing i j with
  | nil => simp [firstMatchIdx] at h
  | cons t ts ih =>
      simp only [firstMatchIdx] at h
      simp only [updateFirstTab]
      split at h
      · cases h
        rename_i htid
        rw [if_pos htid]
        cases j with
        | zero => omega
        | succ k => simp
      · rename_i htid
        rw [if_neg htid]
        obtain ⟨m, hm, rfl⟩ := Option.map_eq_some'.mp h
        cases j with
        | zero => simp
        | succ k =>
            simp only [List.getD_cons_succ]
            exact ih m hm k (by omega)

theorem updateFirstTab_getD_eq (tabs : List Tab) (tabId : String) (f : Tab → Tab)
    (i : Nat) (h : firstMatchIdx tabs tabId = some i) :
    (updateFirstTab tabs tabId f).getD i defaultTab = f (tabs.getD i defaultTab) := by
  induction tabs generalizing i with
  | nil => simp [firstMatchIdx] at h
  | cons t ts ih =>
      simp only [firstMatchIdx] at h
      simp only [updateFirstTab]
      split at h
      · cases h
        rename_i htid
        rw [if_pos htid]
        simp
      · rename_i htid
        rw [if_neg htid]
        obtain ⟨m, hm, rfl⟩ := Option.map_eq_some'.mp h
        simp only [List.getD_cons_succ]
        exact ih m hm

theorem firstMatchIdx_updateFirstTab (tabs : List Tab) (tabId : String) (f : Tab → Tab)
    (hf : ∀ t, (f t).id = t.id) (i : Nat) (h : firstMatchIdx tabs tabId = some i) :
    firstMatchIdx (updateFirstTab tabs tabId f) tabId = some i := by
  induction tabs generalizing i with
  | nil => simp [firstMatchIdx] at h
  | cons t ts ih =>
      simp only [firstMatchIdx] at h
      simp only [updateFirstTab]
      split at h
      · cases h
        rename_i htid
        rw [if_pos htid]
        simp only [firstMatchIdx]
        rw [if_pos (by simpa [hf t] using htid)]
      · rename_i htid
        rw [if_neg htid]
        obtain ⟨m, hm, rfl⟩ := Option.map_eq_some'.mp h
        simp only [firstMatchIdx]
        rw [if_neg htid, ih m hm]
        rfl

theorem persistTabs_concat (tabs : List Tab) (t : Tab) :
    persistTabs (tabs ++ [t]) = persistTabs tabs ++
      [{ id := t.id, title := t.title, content := t.content,
         hidden := if t.hidden == some true then 1 else 0,
         sort_order := tabs.length }] := by
  simp only [persistTabs, List.length_append, List.length_cons, List.length_nil]
  rw [List.range_succ, List.zip_append (by simp)]
  simp

theorem getLast?_concat_row (rows : List TabRow) (r : TabRow) :
    (rows ++ [r]).getLast? = some r := by
  rw [List.getLast?_append_cons]
  rfl

/-! ### Claims -/

/-- Claim C1: for every `DocumentState` and every `tab-update` message
whose tabId matches no tab in the state, the Room Actor's handler leaves
the whole room state unchanged (no tab created or resurrected, no field
of any tab modified, nothing persisted) and addresses no outbound
message — in particular no error — to the sender. -/
theorem tabUpdate_unknownTab_silently_dropped (st : RoomState) (cid tabId : String)
    (title content : Option String)
    (h : tabExists st.documentState tabId = false) :
    (handleMessage st cid (ClientMessage.tabUpdate tabId title content)).1 = st ∧
    ∀ p ∈ (handleMessage st cid (ClientMessage.tabUpdate tabId title content)).2,
      p.1 ≠ cid := by
  cases hs : sessionLookup st.sessions cid with
  | none => simp [handleMessage, hs]
  | some s =>
      have hstep : handleMessage st cid (ClientMessage.tabUpdate tabId title content)
          = (st, broadcastExcept st.sessions cid (ClientMessage.tabUpdate tabId title content)) := by
        cases hd : st.documentState with
        | none => simp [handleMessage, hs, hd]
        | some doc =>
            cases hft : findTab doc.tabs tabId with
            | none => simp [handleMessage, hs, hd, hft]
            | some t =>
                exfalso
                rw [hd] at h
                simp [tabExists, hft] at h
      rw [hstep]
      exact ⟨rfl, fun p hp => mem_broadcastExcept_ne _ _ _ p hp⟩

/-- Witness for C1: a room with one session and a single tab `t2`; a
`tab-update` for the unknown tab `t1` leaves the room state unchanged. -/
theorem tabUpdate_unknownTab_witness :
    tabExists wRoom.documentState "t1" = false ∧
    (handleMessage wRoom "a" (ClientMessage.tabUpdate "t1" none (some "y"))).1 = wRoom :=
  ⟨by decide,
   (tabUpdate_unknownTab_silently_dropped wRoom "a" "t1" none (some "y") (by decide)).1⟩

/-- Claim C4: applying the same `full-sync` message twice in a row yields
a room state identical to applying it once, for every payload and every
starting state. -/
theorem fullSync_idempotent (st : RoomState) (cid : String) (s : DocumentState) :
    (handleMessage (handleMessage st cid (ClientMessage.fullSync s)).1 cid
        (ClientMessage.fullSync s)).1
      = (handleMessage st cid (ClientMessage.fullSync s)).1 := by
  cases hs : sessionLookup st.sessions cid with
  | none => simp [handleMessage, hs]
  | some sess => simp [handleMessage, hs, persistState]

/-- Claim C6: a `layout-update` leaves the document state (and its
persisted rows) untouched: reading any tab's content before and after
returns the same value; only the layout state is replaced. -/
theorem layoutUpdate_leaves_document_unchanged (st : RoomState) (cid : String)
    (layout : LayoutSplitData) (panes : List PaneState) :
    ((handleMessage st cid (ClientMessage.layoutUpdate layout panes)).1).documentState
        = st.documentState ∧
    ((handleMessage st cid (ClientMessage.layoutUpdate layout panes)).1).db.docRow
        = st.db.docRow ∧
    ((handleMessage st cid (ClientMessage.layoutUpdate layout panes)).1).db.tabRows
        = st.db.tabRows ∧
    ((handleMessage st cid (ClientMessage.layoutUpdate layout panes)).1).sessions
        = st.sessions ∧
    ∀ tabId, tabContentRead
        ((handleMessage st cid (ClientMessage.layoutUpdate layout panes)).1).documentState tabId
      = tabContentRead st.documentState tabId := by
  cases hs : sessionLookup st.sessions cid with
  | none => simp [handleMessage, hs]
  | some sess => simp [handleMessage, hs, persistLayout]

/-- Claim C7: the client discards every inbound message whose `from`
field equals its own server-assigned client id: no callback is invoked
and no local state changes. -/
theorem selfEcho_discarded (cst : ClientState) (msg : ServerMessage) (c : String)
    (h1 : msg.fromId = some c) (h2 : cst.clientId = some c) :
    clientHandleMessage cst msg = (cst, []) := by
  simp [clientHandleMessage, shouldDiscard, h1, h2]

/-- Witness for C7: a client with id `a` receiving its own echoed
`tab-update` does nothing. -/
theorem selfEcho_discarded_witness :
    ({ fromId := some "a",
       payload := ServerPayload.tabUpdate "t1" none (some "x") } : ServerMessage).fromId
      = some "a" ∧
    ({ clientId := some "a" } : ClientState).clientId = some "a" ∧
    clientHandleMessage { clientId := some "a" }
        { fromId := some "a", payload := ServerPayload.tabUpdate "t1" none (some "x") }
      = ({ clientId := some "a" }, []) :=
  ⟨rfl, rfl, selfEcho_discarded _ _ "a" rfl rfl⟩

/-- Claim C8: the reconnect delay for the n-th attempt (n starting at 0)
is `min(1000 * 2^n, 30000)` ms, and once the counter has reached the
bound of 10 attempts no reconnect is ever scheduled again (the counter
no longer changes). -/
theorem scheduleReconnect_backoff (n : Nat) :
    (n < maxReconnectAttempts →
        scheduleReconnect n = (some (min (1000 * 2 ^ n) 30000), n + 1)) ∧
    (maxReconnectAttempts ≤ n → scheduleReconnect n = (none, n)) := by
  constructor
  · intro h
    rw [scheduleReconnect, if_neg (by omega)]
  · intro h
    rw [scheduleReconnect, if_pos (by omega)]

/-- Witness for C8: attempt 3 is scheduled after 8000 ms; at the
10-attempt bound nothing is scheduled and the counter stays put. -/
theorem scheduleReconnect_backoff_witness :
    3 < maxReconnectAttempts ∧
    scheduleReconnect 3 = (some (min (1000 * 2 ^ 3) 30000), 3 + 1) ∧
    maxReconnectAttempts ≤ 10 ∧
    scheduleReconnect 10 = (none, 10) :=
  ⟨by decide, (scheduleReconnect_backoff 3).1 (by decide), by decide,
   (scheduleReconnect_backoff 10).2 (by decide)⟩

/-- Claim C10: an inbound `tab-update` carrying no `content` field makes
the client invoke `onTabUpdate` with the empty string as the content
argument (`message.content || ''`), so the local document content gets
replaced by the empty string rather than left unchanged. -/
theorem tabUpdate_noContent_passes_empty (cst : ClientState) (f : Option String)
    (tabId : String) (title : Option String)
    (h : shouldDiscard cst
        { fromId := f, payload := ServerPayload.tabUpdate tabId title none } = false) :
    clientHandleMessage cst { fromId := f, payload := ServerPayload.tabUpdate tabId title none }
      = (cst, [ClientCallback.onTabUpdate tabId "" title]) := by
  simp [clientHandleMessage, h, dispatchPayload, jsOrEmptyString]

/-- Witness for C10: a title-only `tab-update` from client `b` received
by client `a` invokes `onTabUpdate` with content `""`. -/
theorem tabUpdate_noContent_witness :
    shouldDiscard { clientId := some "a" }
        { fromId := some "b", payload := ServerPayload.tabUpdate "t1" (some "new.md") none }
      = false ∧
    clientHandleMessage { clientId := some "a" }
        { fromId := some "b", payload := ServerPayload.tabUpdate "t1" (some "new.md") none }
      = ({ clientId := some "a" }, [ClientCallback.onTabUpdate "t1" "" (some "new.md")]) :=
  ⟨by decide,
   tabUpdate_noContent_passes_empty { clientId := some "a" } (some "b") "t1" (some "new.md")
     (by decide)⟩

/-- Claim C5: hiding tab T then restoring T yields a state in which T has
the same content, title and list position as before, with
`hidden = false`, while every other tab, the active-tab pointer and the
counter are unchanged (the flag is toggled in place, ordering
preserved). -/
theorem hideRestore_roundtrip (st : RoomState) (cid tabId : String)
    (doc : DocumentState) (i : Nat)
    (hsess : sessionExists st.sessions cid = true)
    (hdoc : st.documentState = some doc)
    (hidx : firstMatchIdx doc.tabs tabId = some i) :
    (afterHideRestore st cid tabId).map DocumentState.activeTabId = some doc.activeTabId ∧
    (afterHideRestore st cid tabId).map DocumentState.tabCounter = some doc.tabCounter ∧
    (afterHideRestore st cid tabId).map (fun d => d.tabs.length) = some doc.tabs.length ∧
    (∀ j, j ≠ i → (afterHideRestore st cid tabId).map (fun d => d.tabs.getD j defaultTab)
        = some (doc.tabs.getD j defaultTab)) ∧
    (afterHideRestore st cid tabId).map (fun d => d.tabs.getD i defaultTab)
        = some { doc.tabs.getD i defaultTab with hidden := some false } := by
  obtain ⟨s0, hs⟩ := Option.isSome_iff_exists.mp (by simpa [sessionExists] using hsess)
  obtain ⟨t1, hft1⟩ := Option.isSome_iff_exists.mp
    (findTab_isSome_of_firstMatchIdx _ _ _ hidx)
  have hidx1 : firstMatchIdx
      (updateFirstTab doc.tabs tabId (fun t => { t with hidden := some true })) tabId
      = some i :=
    firstMatchIdx_updateFirstTab doc.tabs tabId
      (fun t => { t with hidden := some true }) (fun _ => rfl) i hidx
  obtain ⟨t2, hft2⟩ := Option.isSome_iff_exists.mp
    (findTab_isSome_of_firstMatchIdx _ _ _ hidx1)
  have hres :
      afterHideRestore st cid tabId =
        some
          { doc with
            tabs :=
              updateFirstTab
                (updateFirstTab doc.tabs tabId (fun t => { t with hidden := some true }))
                tabId
                (fun t => { t with hidden := some false }) } := by
    simp [afterHideRestore, handleMessage, hs, hdoc, hft1, hft2]
  rw [hres]
  refine ⟨rfl, rfl, ?_, ?_, ?_⟩
  · simp [updateFirstTab_length]
  · intro j hj
    simp only [Option.map_some']
    rw [updateFirstTab_getD_ne _ _ _ i hidx1 j hj, updateFirstTab_getD_ne _ _ _ i hidx j hj]
  · simp only [Option.map_some']
    rw [updateFirstTab_getD_eq _ _ _ i hidx1, updateFirstTab_getD_eq _ _ _ i hidx]

/-- Witness for C5: hiding then restoring tab `t2` in a one-tab document
returns that tab with `hidden = false` and its fields intact. -/
theorem hideRestore_roundtrip_witness :
    sessionExists wRoom.sessions "a" = true ∧
    firstMatchIdx wDoc.tabs "t2" = some 0 ∧
    (afterHideRestore wRoom "a" "t2").map (fun d => d.tabs.getD 0 defaultTab)
      = some { wDoc.tabs.getD 0 defaultTab with hidden := some false } :=
  ⟨by decide, by decide,
   (hideRestore_roundtrip wRoom "a" "t2" wDoc 0 (by decide) rfl (by decide)).2.2.2.2⟩

/-- Claim C3 (amended): `tab-create` appends a tab record carrying the
message's tabId, title and content to the end of the ordered list and
persists it as the last row (`hidden = 0`, `sort_order` = previous
length); the wire message's `isPreview` and `sourceTabId` fields are
dropped by the Room Actor — the stored record carries neither. -/
theorem tabCreate_appends_and_persists (st : RoomState)
    (cid tabId title content : String)
    (isPreview : Option Bool) (sourceTabId : Option String)
    (hsess : sessionExists st.sessions cid = true) :
    (handleMessage st cid
        (ClientMessage.tabCreate tabId title content isPreview sourceTabId)).1.documentState
      = some { st.documentState.getD emptyDocumentState with
               tabs := (st.documentState.getD emptyDocumentState).tabs ++
                 [{ id := tabId, title := title, content := content,
                    hidden := none, isPreview := none, sourceTabId := none }] } ∧
    (handleMessage st cid
        (ClientMessage.tabCreate tabId title content isPreview sourceTabId)).1.db.tabRows.getLast?
      = some { id := tabId, title := title, content := content, hidden := 0,
               sort_order := (st.documentState.getD emptyDocumentState).tabs.length } := by
  obtain ⟨s0, hs⟩ := Option.isSome_iff_exists.mp (by simpa [sessionExists] using hsess)
  constructor
  · simp [handleMessage, hs]
  · simp [handleMessage, hs, persistState, persistTabs_concat, getLast?_concat_row]

/-- Witness for C3 (amended): creating tab `t1` in an empty space stores
and persists exactly the record `(t1, title, content)` at sort position
0. -/
theorem tabCreate_appends_witness :
    sessionExists c3Room.sessions "a" = true ∧
    (handleMessage c3Room "a"
        (ClientMessage.tabCreate "t1" "Preview" "" (some true) (some "src"))).1.db.tabRows.getLast?
      = some { id := "t1", title := "Preview", content := "", hidden := 0,
               sort_order := (c3Room.documentState.getD emptyDocumentState).tabs.length } :=
  ⟨by decide,
   (tabCreate_appends_and_persists c3Room "a" "t1" "Preview" "" (some true) (some "src")
      (by decide)).2⟩

/-- Counterexample for C3 as stated: a preview `tab-create` carrying
`sourceTabId = "src"` is stored by the Room Actor WITHOUT the reference —
the appended record's `sourceTabId` is `none`, not `some "src"`. -/
theorem tabCreate_sourceTabId_dropped_cex :
    ((handleMessage c3Room "a"
        (ClientMessage.tabCreate "t1" "Preview" "" (some true) (some "src"))).1.documentState.map
      (fun d => d.tabs.map Tab.sourceTabId)) = some [none] ∧
    ((handleMessage c3Room "a"
        (ClientMessage.tabCreate "t1" "Preview" "" (some true) (some "src"))).1.documentState.map
      (fun d => d.tabs.map Tab.sourceTabId)) ≠ some [some "src"] :=
  ⟨by decide, by decide⟩

/-- Claim C2 (amended): on an awareness update from a connected session,
the server sends the full awareness table to every connected session
including the sender; the table has exactly N entries — one per session,
each session's own client id included (not N-1 with itself excluded) —
and the client hands the received table unchanged to
`onAwarenessChange`. -/
theorem awareness_full_table_to_all (st : RoomState) (cid : String)
    (tabId : Option String) (cursor : Option Cursor) (selection : Option Selection)
    (hsess : sessionExists st.sessions cid = true) :
    ((handleMessage st cid (ClientMessage.awareness tabId cursor selection)).2
        = broadcastAwareness
            (handleMessage st cid (ClientMessage.awareness tabId cursor selection)).1.sessions) ∧
    ((handleMessage st cid (ClientMessage.awareness tabId cursor selection)).1.sessions.length
        = st.sessions.length) ∧
    ((awarenessTableOf
        (handleMessage st cid (ClientMessage.awareness tabId cursor selection)).1.sessions).length
        = st.sessions.length) ∧
    ((handleMessage st cid (ClientMessage.awareness tabId cursor selection)).2.map Prod.fst
        = (handleMessage st cid (ClientMessage.awareness tabId cursor selection)).1.sessions.map
            Session.clientId) ∧
    (∀ s, s ∈ (handleMessage st cid (ClientMessage.awareness tabId cursor selection)).1.sessions →
        (s.clientId, awarenessEntryOf s) ∈ awarenessTableOf
          (handleMessage st cid (ClientMessage.awareness tabId cursor selection)).1.sessions) ∧
    (∀ cst T, clientHandleMessage cst { fromId := none, payload := ServerPayload.awareness T }
        = (cst, [ClientCallback.onAwarenessChange T])) := by
  obtain ⟨s0, hs⟩ := Option.isSome_iff_exists.mp (by simpa [sessionExists] using hsess)
  have hstep : handleMessage st cid (ClientMessage.awareness tabId cursor selection)
      = ({ st with sessions := st.sessions.map (fun s =>
            if s.clientId == cid then
              { s with tabId := tabId, cursor := cursor, selection := selection }
            else s) },
         broadcastAwareness (st.sessions.map (fun s =>
            if s.clientId == cid then
              { s with tabId := tabId, cursor := cursor, selection := selection }
            else s))) := by
    simp [handleMessage, hs]
  rw [hstep]
  refine ⟨rfl, by simp, by simp [awarenessTableOf],
    by simp [broadcastAwareness, List.map_map, Function.comp], ?_, ?_⟩
  · intro s hmem
    exact List.mem_map_of_mem _ hmem
  · intro cst T
    rfl

/-- Witness for C2 (amended): in the two-session room, the awareness
rebroadcast is addressed to both sessions, the sender included. -/
theorem awareness_full_table_witness :
    sessionExists cexRoom.sessions "a" = true ∧
    (handleMessage cexRoom "a"
        (ClientMessage.awareness (some "t1") (some { line := 2, column := 0 }) none)).2.map
        Prod.fst
      = (handleMessage cexRoom "a"
          (ClientMessage.awareness (some "t1") (some { line := 2, column := 0 }) none)).1.sessions.map
          Session.clientId :=
  ⟨by decide,
   (awareness_full_table_to_all cexRoom "a" (some "t1") (some { line := 2, column := 0 }) none
      (by decide)).2.2.2.1⟩

/-- Counterexample for C2 as stated: with N = 2 connected sessions that
both sent awareness updates, the table session `a` receives in the
awareness broadcast (and passes verbatim to `onAwarenessChange`) has 2
entries with its own client id `a` included — not N-1 = 1 entries with
itself excluded. -/
theorem awareness_table_includes_self_cex :
    cexStep.2.map Prod.fst = ["a", "b"] ∧
    clientHandleMessage { clientId := some "a" }
        { fromId := none, payload := ServerPayload.awareness cexTable }
      = ({ clientId := some "a" }, [ClientCallback.onAwarenessChange cexTable]) ∧
    cexTable.map Prod.fst = ["a", "b"] ∧
    cexTable.length = 2 ∧
    ¬ cexTable.length = 1 :=
  ⟨by decide, rfl, by decide, by decide, by decide⟩

/-- Claim C9 (amended): a new session's display color is drawn from the
fixed 12-color palette purely by the random draw, independent of the
session registry and of the colors already assigned — no collision
avoidance is performed. -/
theorem color_random_palette_independent (st1 st2 : RoomState)
    (cid1 cid2 : String) (r : Nat) :
    (handleWebSocket st1 cid1 r).2.color = (handleWebSocket st2 cid2 r).2.color ∧
    (handleWebSocket st1 cid1 r).2.color ∈ colors := by
  refine ⟨rfl, ?_⟩
  show generateColor r ∈ colors
  have hpos : 0 < colors.length := by decide
  have hlt : r % colors.length < colors.length := Nat.mod_lt _ hpos
  rw [generateColor, List.getD_eq_getElem _ _ hlt]
  exact List.getElem_mem _

/-- Counterexample for C9 as stated: one session holds `#FF6B6B` (fewer
sessions than palette colors), yet the random draw 0 assigns the new
session that very same color — the choice does not avoid collision. -/
theorem color_collision_cex :
    c9Room.sessions.length < colors.length ∧
    (handleWebSocket c9Room "b" 0).2.color = "#FF6B6B" ∧
    "#FF6B6B" ∈ c9Room.sessions.map Session.color :=
  ⟨by decide, by decide, by decide⟩
